import Mathlib

/-!
Shallow embedding of the Jpegli image optimizer (src/jpegli_opt.py).

The embedding covers:
* `predict_safe_distance` — the pure aggressiveness predictor (source lines 26-70),
  modelled over `ℚ` (the Python float constants are exact decimal fractions).
* the noise statistic of `analyze_image_fast` (source lines 106-115); the
  grayscale samples are numpy `uint8` values, modelled as `Nat` with the
  wrap-around subtraction made explicit.
* `process_single_image` — the per-file transactional state machine
  (source lines 304-492), modelled as a function from an abstract file system
  (a map from paths to byte contents) to a new file system plus a result or
  error.  External collaborators (cv2 decode, PIL convert/resize, the cjpegli
  encoder, exiftool) are modelled by an `Env` record holding their outcomes for
  one job; timestamps are not modelled (no claim depends on them).
* `process_batch` — the scheduler's per-completion statistics aggregation
  (source lines 265-301), modelled as a sequential fold (each job touches only
  paths derived from its own input path, and the counter update is performed
  under a lock in the source, one update per task).
-/

/-! ## AggressivenessPredictor (source lines 26-70) -/

/-- The four per-image statistics (source: the dict returned by
`analyze_image_fast`, consumed by `predict_safe_distance`). -/
structure ImageStats where
  edge_density : ℚ
  texture : ℚ
  variance : ℚ
  noise : ℚ

/-- Accumulation steps 3-5 of `predict_safe_distance` (source lines 42-62):
baseline 0.65, texture bonus, edge brake, noise bonus.  The accumulation is
pure, so it is factored out of the if/return chain. -/
def photo_distance (stats : ImageStats) : ℚ :=
  let distance : ℚ := 0.65
  let distance := if stats.texture > 3.0 then distance + (stats.texture - 3.0) * 0.04 else distance
  let distance := if stats.edge_density > 0.10 then distance - (stats.edge_density - 0.10) * 3.5 else distance
  let distance := if stats.noise > 5.0 then distance + 0.2 else distance
  distance

/-- Source lines 26-70.  The screenshot gate (`noise < 0.5` returns 0.55), the
variance gate (`variance < 600` returns 0.65, discarding the accumulated
`photo_distance`), and the final clamp `max(0.55, min(distance, 2.2))`.
In the source the variance test is written after the accumulation; since the
accumulation has no side effects the two are equivalent. -/
def predict_safe_distance (stats : ImageStats) : ℚ :=
  if stats.noise < 0.5 then 0.55
  else if stats.variance < 600 then 0.65
  else max 0.55 (min (photo_distance stats) 2.2)

/-! ## FeatureExtractor noise statistic (source lines 106-115)

`analyze_image_fast` computes
`noise = np.median(np.abs(crop - cv2.GaussianBlur(crop, (3, 3), 0)))` where
`crop` is a centered 2048x2048 square of the grayscale image when both
dimensions strictly exceed 2048, and the whole image otherwise.  Both `crop`
and the blurred array have dtype `uint8`, so the numpy subtraction wraps
modulo 256 and `np.abs` is the identity on the unsigned result.  The Gaussian
blur itself is an external cv2 collaborator; it is modelled as an arbitrary
second sample array (same shape as the crop). -/

/-- A grayscale sample array: a list of rows of `uint8` sample values. -/
abbrev Gray := List (List Nat)

/-- Numpy `uint8` subtraction followed by `np.abs`: the difference wraps
modulo 256 and `np.abs` is the identity on `uint8`. -/
def u8sub (a b : Nat) : Nat := (((a : Int) - (b : Int)) % 256).toNat

/-- True signed absolute difference of two sample values (the spec's
reading of `|crop - blur|`). -/
def absdiff (a b : Nat) : Nat := ((a : Int) - (b : Int)).natAbs

/-- Insert into a sorted list (ascending). -/
def insert_sorted (a : Nat) : List Nat → List Nat
  | [] => [a]
  | b :: t => if a ≤ b then a :: b :: t else b :: insert_sorted a t

/-- Insertion sort, ascending. -/
def sort_nat : List Nat → List Nat
  | [] => []
  | a :: t => insert_sorted a (sort_nat t)

/-- Numpy median: sort the flattened samples; middle element for odd length,
mean of the two middle elements for even length (hence a rational). -/
def np_median (l : List Nat) : ℚ :=
  let s := sort_nat l
  let n := l.length
  if n % 2 = 1 then ((s.getD (n / 2) 0 : Nat) : ℚ)
  else (((s.getD (n / 2 - 1) 0 : Nat) : ℚ) + ((s.getD (n / 2) 0 : Nat) : ℚ)) / 2

/-- Center-crop selection, source lines 107-113: the centered 2048x2048
square when `h > 2048 and w > 2048`, otherwise the whole image. -/
def center_crop (gray : Gray) : Gray :=
  let h := gray.length
  let w := (gray.headD []).length
  let sample_size := 2048
  if sample_size < h ∧ sample_size < w then
    let y := (h - sample_size) / 2
    let x := (w - sample_size) / 2
    ((gray.drop y).take sample_size).map (fun row => (row.drop x).take sample_size)
  else gray

/-- Elementwise combination of two sample arrays, flattened row-major. -/
def diff_map (f : Nat → Nat → Nat) (a b : Gray) : List Nat :=
  (List.zipWith (fun r1 r2 => List.zipWith f r1 r2) a b).flatten

/-- The noise statistic as the code computes it (source line 115): median of
the `uint8` wrap-around difference between the center crop and its blurred
version (`blur_of_crop` stands for the external `cv2.GaussianBlur` output). -/
def analyze_noise (gray blur_of_crop : Gray) : ℚ :=
  np_median (diff_map u8sub (center_crop gray) blur_of_crop)

/-- Modelled from the spec's words for comparison: median of the true signed
absolute difference `|crop - blur|`. -/
def analyze_noise_spec (gray blur_of_crop : Gray) : ℚ :=
  np_median (diff_map absdiff (center_crop gray) blur_of_crop)

/-- Pointwise side condition on two rows: each blurred sample is at most the
source sample and the source sample is a valid `uint8`. -/
def pairs_ok : List Nat → List Nat → Bool
  | a :: t1, b :: t2 => (decide (b ≤ a) && decide (a < 256)) && pairs_ok t1 t2
  | _, _ => true

/-- `pairs_ok` on every pair of corresponding rows. -/
def grid_ok : Gray → Gray → Bool
  | r1 :: t1, r2 :: t2 => pairs_ok r1 r2 && grid_ok t1 t2
  | _, _ => true

/-! ## TranscodeJob state machine (source lines 304-492) -/

/-- A file path, split as pathlib does into the part before the last suffix and
the suffix itself.  Every path the job touches is derived from the input path
by `with_suffix`, which replaces the suffix (the inputs accepted by `on_drop`
have the single suffix `.jpg`, `.jpeg` or `.png`, so the pathlib and model
behaviours agree on every call site). -/
structure FilePath where
  stem : String
  suffix : String
deriving DecidableEq

/-- Byte content of a file.  Only lengths and identity of contents matter. -/
abbrev Bytes := List Nat

/-- Pathlib `with_suffix` on the model representation. -/
def with_suffix (p : FilePath) (s : String) : FilePath := { p with suffix := s }

/-- The file system: a partial map from paths to byte contents. -/
def FS := FilePath → Option Bytes

/-- Write (create or overwrite) a file. -/
def FS.update (fs : FS) (p : FilePath) (b : Bytes) : FS :=
  fun q => if q = p then some b else fs q

/-- Delete a file. -/
def FS.erase (fs : FS) (p : FilePath) : FS :=
  fun q => if q = p then none else fs q

/-- The empty file system. -/
def FS.empty : FS := fun _ => none

/-- Configuration surface consumed by the job (the tk variables of the source,
lines 143-148). -/
structure Config where
  auto_quality : Bool
  quality : Nat
  enable_resize : Bool
  max_width : Nat
  enable_min_reduction : Bool
  min_reduction : Nat

/-- Outcomes of the external collaborators for one job.
* `analyzeResult`: `analyze_image_fast` result, `none` when both decode paths
  fail and the exception propagates (source lines 77-93).
* `convertOutcome`: `convert_png_to_temp_jpg` — bytes written to the interim
  JPEG, or a PIL failure.
* `resizeOutcome`: `handle_resize` when enabled — `none` means the image is
  small enough and the original path is passed through, `some b` means a
  resized interim file with bytes `b` is written; `Except.error` is a PIL
  failure.
* `encodeOutcome`: the cjpegli subprocess with `check=True` — on success the
  bytes written to the temp output; on failure (raised `CalledProcessError`)
  optionally the partial bytes it left in the temp output.
* `exifPngApply`: content transform performed by the exiftool date-injection
  call on the PNG path (source line 403); its exit status is not checked.
* `metaVanishes`: whether an external actor removed the metadata backup before
  the restore step (the situation the `metadata_file.exists()` check at source
  line 430 defends against).
* `exifCopyOk`: exit status of the exiftool tag-copy call (source line 454).
* `exifCopyApply`: content transform of a successful tag copy, given the
  backup bytes and the encoded bytes. -/
structure Env where
  analyzeResult : Option ImageStats
  convertOutcome : Except Unit Bytes
  resizeOutcome : Except Unit (Option Bytes)
  encodeOutcome : Except (Option Bytes) Bytes
  exifPngApply : Bytes → Bytes
  metaVanishes : Bool
  exifCopyOk : Bool
  exifCopyApply : Bytes → Bytes → Bytes

/-- The exceptions `process_single_image` can raise, by raising site. -/
inductive JobError where
  /-- `file_path.stat()` failed at source line 308 (file absent). -/
  | statError
  /-- both decode paths of `analyze_image_fast` failed. -/
  | decodeError
  /-- PIL failure inside `convert_png_to_temp_jpg`. -/
  | convertError
  /-- PIL failure inside `handle_resize`. -/
  | resizeError
  /-- cjpegli exited non-zero (`check=True`, source line 354). -/
  | encodeError
  /-- `temp_file.stat()` failed at source line 360 (no encoder output). -/
  | missingOutputError
  /-- `reduction` computed with `original_size == 0` (source line 361). -/
  | zeroDivisionError
  /-- metadata backup absent at restore time (source lines 430-434). -/
  | missingBackupError
  /-- exiftool tag copy exited non-zero (source lines 456-459). -/
  | exifToolError
deriving DecidableEq

/-- The dict returned at source line 492. -/
structure JobResult where
  original_size : Nat
  new_size : Nat
  replaced : Bool
deriving DecidableEq

/-- Source lines 494-520: convert a PNG to an interim high-quality JPEG at
`png_path.with_suffix('.png_temp.jpg')` and return that path.  The pixel work
(transparency flattening, optional resize, save) is PIL's; the model records
the bytes the environment says were written, or the PIL exception. -/
def convert_png_to_temp_jpg (env : Env) (fs : FS) (png_path : FilePath) :
    FS × Except JobError FilePath :=
  let temp_jpg := with_suffix png_path ".png_temp.jpg"
  match env.convertOutcome with
  | .error _ => (fs, .error .convertError)
  | .ok b => (fs.update temp_jpg b, .ok temp_jpg)

/-- Source lines 522-532: pass the path through when resizing is disabled or
the image is small enough; otherwise write the resized interim file at
`file_path.with_suffix('.resized.jpg')` and return that path. -/
def handle_resize (cfg : Config) (env : Env) (fs : FS) (file_path : FilePath) :
    FS × Except JobError FilePath :=
  if cfg.enable_resize then
    match env.resizeOutcome with
    | .error _ => (fs, .error .resizeError)
    | .ok none => (fs, .ok file_path)
    | .ok (some b) =>
        (fs.update (with_suffix file_path ".resized.jpg") b,
         .ok (with_suffix file_path ".resized.jpg"))
  else (fs, .ok file_path)

/-- Source line 361: `reduction = ((original_size - new_size) / original_size)
* 100`, as exact rational arithmetic. -/
def reduction_of (original_size new_size : Nat) : ℚ :=
  (((original_size : ℚ) - (new_size : ℚ)) / (original_size : ℚ)) * 100

/-- The size-comparison decision, source lines 372-379: skip when
`reduction <= 5`, skip when the minimum-reduction gate is enabled and
`reduction < min_reduction`, otherwise replace. -/
def evaluate_decision (cfg : Config) (reduction : ℚ) : Bool :=
  if reduction ≤ 5 then false
  else if cfg.enable_min_reduction ∧ reduction < (cfg.min_reduction : ℚ) then false
  else true

/-- The `try` body of `process_single_image` (source lines 328-479).  Returns
the updated file system and either the raised exception or the pair
`(new_size, replaced)` used to build the returned dict. -/
def process_try_body (cfg : Config) (env : Env) (fs1 : FS)
    (file_path output_file temp_file metadata_file : FilePath)
    (is_png : Bool) (original_size : Nat) : FS × Except JobError (Nat × Bool) :=
  -- line 330: stats = analyze_image_fast(file_path); DecodeError propagates
  match env.analyzeResult with
  | none => (fs1, .error .decodeError)
  | some stats =>
    -- lines 336-339: prepare the encoder source
    let prep := if is_png then convert_png_to_temp_jpg env fs1 file_path
                else handle_resize cfg env fs1 file_path
    match prep with
    | (fs, .error e) => (fs, .error e)
    | (fs2, .ok source_file) =>
      -- lines 342-351: the command line; its options (including the predicted
      -- distance) only parametrise the external encoder, whose outcome the
      -- environment supplies, so they are computed but not otherwise used
      let _distance : ℚ := if cfg.auto_quality then predict_safe_distance stats else 0
      -- line 354: run cjpegli with check=True
      match env.encodeOutcome with
      | .error wrote =>
        let fs3 := match wrote with
          | some pb => fs2.update temp_file pb
          | none => fs2
        (fs3, .error .encodeError)
      | .ok enc_bytes =>
        let fs3 := fs2.update temp_file enc_bytes
        -- lines 356-357: delete the interim source file
        let fs4 := if source_file ≠ file_path ∧ (fs3 source_file).isSome
                   then fs3.erase source_file else fs3
        -- line 360: new_size = temp_file.stat().st_size
        match fs4 temp_file with
        | none => (fs4, .error .missingOutputError)
        | some tb =>
          let new_size := tb.length
          -- line 361: reduction; ZeroDivisionError when original_size == 0
          if original_size = 0 then (fs4, .error .zeroDivisionError)
          else
            if evaluate_decision cfg (reduction_of original_size new_size) then
              -- line 387: shutil.move(temp_file, output_file)
              let fs5 := (fs4.erase temp_file).update output_file tb
              if is_png then
                -- lines 392-427: exiftool date injection (exit status not
                -- checked), timestamp restoration (not modelled), then the
                -- original PNG is deleted; `replaced` is never assigned on
                -- this branch, so it keeps its line-368 value `False`
                let fs6 := fs5.update output_file (env.exifPngApply tb)
                let fs7 := fs6.erase file_path
                (fs7, .ok (new_size, false))
              else
                -- lines 428-473: JPEG metadata restore
                let fs6 := if env.metaVanishes then fs5.erase metadata_file else fs5
                match fs6 metadata_file with
                | none =>
                  -- lines 430-434: undo the commit and raise
                  let fs7 := if (fs6 output_file).isSome then fs6.erase output_file else fs6
                  (fs7, .error .missingBackupError)
                | some mb =>
                  if env.exifCopyOk then
                    -- tag copy succeeded; timestamps (lines 461-471) not
                    -- modelled; line 473: replaced = True
                    let fs7 := fs6.update output_file (env.exifCopyApply mb tb)
                    (fs7, .ok (new_size, true))
                  else
                    -- lines 456-459: roll back and raise
                    let fs7 := fs6.update output_file mb
                    (fs7, .error .exifToolError)
            else
              -- lines 474-477: skip; delete the temp file
              (fs4.erase temp_file, .ok (new_size, false))

/-- Source lines 304-492: one TranscodeJob.  Returns the final file system and
either the returned dict or the exception that propagated to the caller. -/
def process_single_image (cfg : Config) (env : Env) (fs0 : FS) (file_path : FilePath) :
    FS × Except JobError JobResult :=
  -- line 308: original_size = file_path.stat().st_size — raises before the
  -- try block (and before the backup copy) when the file is absent
  match fs0 file_path with
  | none => (fs0, .error .statError)
  | some orig_bytes =>
    let original_size := orig_bytes.length
    let is_png := file_path.suffix = ".png"
    -- line 314: PNG output replaces the .png with .jpg
    let output_file := if is_png then with_suffix file_path ".jpg" else file_path
    let metadata_file := with_suffix file_path ".metadata.jpg"
    -- lines 319-324: full byte-copy backup, JPEG inputs only
    let fs1 : FS := if is_png then fs0 else fs0.update metadata_file orig_bytes
    let temp_file := with_suffix output_file ".tmp.jpg"
    match process_try_body cfg env fs1 file_path output_file temp_file metadata_file
        is_png original_size with
    | (fs, .ok (new_size, replaced)) =>
      -- lines 486-489 (finally): delete the metadata backup if it exists
      let fs' := if ¬ is_png ∧ (fs metadata_file).isSome then fs.erase metadata_file else fs
      -- line 492: the returned dict
      (fs', .ok { original_size := original_size,
                  new_size := if replaced then new_size else original_size,
                  replaced := replaced })
    | (fs, .error e) =>
      -- lines 481-485 (except): delete the temp file if it exists, re-raise
      let fsA := if (fs temp_file).isSome then fs.erase temp_file else fs
      -- lines 486-489 (finally)
      let fsB := if ¬ is_png ∧ (fsA metadata_file).isSome then fsA.erase metadata_file else fsA
      (fsB, .error e)

/-! ## BatchScheduler aggregation (source lines 265-301) -/

/-- The `batch_stats` dict (source lines 276-279). -/
structure BatchStats where
  original_size : Nat
  new_size : Nat
  processed : Nat
  skipped : Nat
  errors : Nat
deriving DecidableEq

/-- The zeroed stats the batch starts from (source lines 276-279). -/
def init_stats : BatchStats := ⟨0, 0, 0, 0, 0⟩

/-- One completion's update under the stats lock (source lines 286-297): a
returned dict adds its sizes and increments `processed` or `skipped` by the
`replaced` flag; a raised exception increments `errors`. -/
def update_stats (s : BatchStats) (r : Except JobError JobResult) : BatchStats :=
  match r with
  | .ok res =>
      { s with
        original_size := s.original_size + res.original_size,
        new_size := s.new_size + res.new_size,
        processed := if res.replaced then s.processed + 1 else s.processed,
        skipped := if res.replaced then s.skipped else s.skipped + 1 }
  | .error _ => { s with errors := s.errors + 1 }

/-- Run the jobs of a batch, threading the file system and the stats.  The
environment is per-file (`envf`).  In the source the jobs run on a thread
pool; each job touches only paths derived from its own input and each
completion performs exactly one locked stats update, so the sequential fold
models the aggregate. -/
def run_jobs (cfg : Config) (envf : FilePath → Env) :
    FS → BatchStats → List FilePath → FS × BatchStats
  | fs, s, [] => (fs, s)
  | fs, s, p :: rest =>
      let r := process_single_image cfg (envf p) fs p
      run_jobs cfg envf r.1 (update_stats s r.2) rest

/-- Source lines 265-301: the whole batch, starting from zeroed stats. -/
def process_batch (cfg : Config) (envf : FilePath → Env) (fs : FS)
    (files : List FilePath) : FS × BatchStats :=
  run_jobs cfg envf fs init_stats files

/-! ## Concrete fixtures for closed runs -/

/-- Configuration for concrete runs: auto quality, no resize, no
minimum-reduction gate (the defaults of the source UI, lines 143-148). -/
def cfg0 : Config :=
  { auto_quality := true, quality := 95, enable_resize := false,
    max_width := 2000, enable_min_reduction := false, min_reduction := 15 }

/-- Sample statistics for concrete runs. -/
def stats0 : ImageStats := ⟨0.05, 1, 5000, 8⟩

/-- A benign environment for concrete runs: analysis succeeds, PNG conversion
writes `[1, 2]`, resizing passes through, the encoder writes `b`, both
exiftool calls succeed, a successful tag copy keeps the encoded bytes. -/
def env_ok (b : Bytes) : Env :=
  { analyzeResult := some stats0, convertOutcome := .ok [1, 2],
    resizeOutcome := .ok none, encodeOutcome := .ok b,
    exifPngApply := id, metaVanishes := false, exifCopyOk := true,
    exifCopyApply := fun _ nb => nb }

/-! ## Theorems -/

/-- C4: for every `ImageStats` input with `noise >= 0.5` and `variance < 600`,
`predict_safe_distance` returns exactly 0.65, discarding every adjustment
accumulated by the texture, edge and noise rules. -/
theorem C4_variance_gate (stats : ImageStats) (h1 : 0.5 ≤ stats.noise)
    (h2 : stats.variance < 600) : predict_safe_distance stats = 0.65 := by
  rw [predict_safe_distance, if_neg (not_lt.mpr h1), if_pos h2]

/-- Witness for C4 at the stats of the claim:
`predict({noise: 8, variance: 500, texture: 50, edgeDensity: 0.9}) == 0.65`. -/
theorem C4_variance_gate_witness :
    (0.5 : ℚ) ≤ 8 ∧ (500 : ℚ) < 600 ∧
      predict_safe_distance ⟨0.9, 50, 500, 8⟩ = 0.65 :=
  ⟨by norm_num, by norm_num,
    C4_variance_gate ⟨0.9, 50, 500, 8⟩ (by norm_num) (by norm_num)⟩

/-- C8: for all valid `ImageStats`, the value returned by
`predict_safe_distance` lies in the closed interval [0.55, 2.2], on every
return path. -/
theorem C8_predict_range (stats : ImageStats) :
    0.55 ≤ predict_safe_distance stats ∧ predict_safe_distance stats ≤ 2.2 := by
  rw [predict_safe_distance]
  split_ifs with h1 h2
  · exact ⟨le_refl _, by norm_num⟩
  · exact ⟨by norm_num, by norm_num⟩
  · exact ⟨le_max_left _ _, max_le (by norm_num) (min_le_right _ _)⟩

/-- C5 counterexample: a 3x3 grayscale image (so the crop is the whole image)
whose blurred version exceeds the source at the five zero-valued samples.  The
code's `uint8` wrap-around median is 248; the true absolute-difference median
is 8. -/
theorem C5_counterexample :
    analyze_noise [[0, 16, 0], [16, 0, 16], [0, 16, 0]]
        [[8, 8, 8], [8, 8, 8], [8, 8, 8]] ≠
      analyze_noise_spec [[0, 16, 0], [16, 0, 16], [0, 16, 0]]
        [[8, 8, 8], [8, 8, 8], [8, 8, 8]] := by
  decide

/-- On a valid `uint8` pair with the blurred sample not exceeding the source
sample, the wrap-around difference agrees with the true absolute difference. -/
theorem u8sub_eq_absdiff {a b : Nat} (hba : b ≤ a) (ha : a < 256) :
    u8sub a b = absdiff a b := by
  unfold u8sub absdiff
  have h0 : (0 : Int) ≤ (a : Int) - (b : Int) := by omega
  have h1 : (a : Int) - (b : Int) < 256 := by omega
  rw [Int.emod_eq_of_lt h0 h1]
  omega

/-- Row-level congruence: under `pairs_ok`, the wrapped and the true
differences agree on the zipped row. -/
theorem zipWith_u8sub_eq_absdiff :
    ∀ r1 r2 : List Nat, pairs_ok r1 r2 = true →
      List.zipWith u8sub r1 r2 = List.zipWith absdiff r1 r2 := by
  intro r1
  induction r1 with
  | nil => intro r2 _; rfl
  | cons a t1 ih =>
    intro r2 h
    cases r2 with
    | nil => rfl
    | cons b t2 =>
      simp only [pairs_ok, Bool.and_eq_true, decide_eq_true_eq] at h
      simp only [List.zipWith_cons_cons, u8sub_eq_absdiff h.1.1 h.1.2, ih t2 h.2]

/-- Grid-level congruence: under `grid_ok`, the flattened wrapped and true
difference sample lists coincide. -/
theorem diff_map_u8sub_eq_absdiff :
    ∀ a b : Gray, grid_ok a b = true →
      diff_map u8sub a b = diff_map absdiff a b := by
  intro a
  induction a with
  | nil => intro b _; rfl
  | cons r1 t1 ih =>
    intro b h
    cases b with
    | nil => rfl
    | cons r2 t2 =>
      simp only [grid_ok, Bool.and_eq_true] at h
      have ihh := ih t2 h.2
      simp only [diff_map, List.zipWith_cons_cons, List.flatten_cons] at ihh ⊢
      rw [zipWith_u8sub_eq_absdiff r1 r2 h.1, ihh]

/-- C5 (amended): the noise statistic is the median of the `uint8`
wrap-around difference `(crop - blur) mod 256`, not of the true signed
absolute difference; the two coincide exactly when no blurred sample exceeds
its (valid `uint8`) source sample — here stated as that sufficient condition
`grid_ok`, under which the code's statistic equals the spec's reading. -/
theorem C5_amended (gray blur : Gray)
    (h : grid_ok (center_crop gray) blur = true) :
    analyze_noise gray blur = analyze_noise_spec gray blur := by
  unfold analyze_noise analyze_noise_spec
  rw [diff_map_u8sub_eq_absdiff _ _ h]

/-- Witness for C5 (amended) on a concrete 2x2 image whose samples dominate
the blurred samples pointwise. -/
theorem C5_amended_witness :
    grid_ok (center_crop [[3, 2], [1, 0]]) [[1, 1], [0, 0]] = true ∧
      analyze_noise [[3, 2], [1, 0]] [[1, 1], [0, 0]] =
        analyze_noise_spec [[3, 2], [1, 0]] [[1, 1], [0, 0]] :=
  ⟨by decide, C5_amended [[3, 2], [1, 0]] [[1, 1], [0, 0]] (by decide)⟩

/-- Each completed task moves the sum `processed + skipped + errors` up by
exactly one. -/
theorem update_stats_total (s : BatchStats) (r : Except JobError JobResult) :
    (update_stats s r).processed + (update_stats s r).skipped +
        (update_stats s r).errors =
      s.processed + s.skipped + s.errors + 1 := by
  cases r with
  | ok res =>
    simp only [update_stats]
    by_cases h : res.replaced <;> simp [h] <;> omega
  | error e => simp [update_stats]; omega

/-- Folding the jobs adds one to the counter sum per file. -/
theorem run_jobs_total (cfg : Config) (envf : FilePath → Env) :
    ∀ (files : List FilePath) (fs : FS) (s : BatchStats),
      ((run_jobs cfg envf fs s files).2.processed +
          (run_jobs cfg envf fs s files).2.skipped +
          (run_jobs cfg envf fs s files).2.errors) =
        s.processed + s.skipped + s.errors + files.length := by
  intro files
  induction files with
  | nil => intro fs s; simp [run_jobs]
  | cons p rest ih =>
    intro fs s
    simp only [run_jobs, List.length_cons]
    rw [ih, update_stats_total]
    omega

/-- C9: for every batch of N submitted files, after all tasks complete the
aggregated counters satisfy `processed + skipped + errors == N`: each task
contributes exactly one increment, to `processed` or `skipped` when it
returns a result and to `errors` when it raises. -/
theorem C9_batch_counters (cfg : Config) (envf : FilePath → Env) (fs : FS)
    (files : List FilePath) :
    (process_batch cfg envf fs files).2.processed +
        (process_batch cfg envf fs files).2.skipped +
        (process_batch cfg envf fs files).2.errors = files.length := by
  unfold process_batch
  rw [run_jobs_total]
  simp [init_stats]

/-- Evaluating an update at the written path. -/
@[simp] theorem FS.update_self (fs : FS) (p : FilePath) (b : Bytes) :
    fs.update p b p = some b := by
  simp [FS.update]

/-- Evaluating an update at a different path. -/
@[simp] theorem FS.update_other (fs : FS) {p q : FilePath} (b : Bytes)
    (h : q ≠ p) : fs.update p b q = fs q := by
  simp [FS.update, h]

/-- Evaluating a deletion at the deleted path. -/
@[simp] theorem FS.erase_self (fs : FS) (p : FilePath) : fs.erase p p = none := by
  simp [FS.erase]

/-- Evaluating a deletion at a different path. -/
@[simp] theorem FS.erase_other (fs : FS) {p q : FilePath} (h : q ≠ p) :
    fs.erase p q = fs q := by
  simp [FS.erase, h]

/-- The empty file system holds nothing. -/
@[simp] theorem FS.empty_apply (p : FilePath) : FS.empty p = none := rfl


/-- Outcome of a PNG job that reaches the commit branch: the temp file is
moved to the `.jpg` output and date-tagged, the original PNG and the interim
and temp files are gone — and the returned dict still has `replaced = False`
and `new_size = original_size`, because `replaced = True` (source line 473) is
only assigned on the JPEG metadata branch. -/
theorem png_commit_run (cfg : Config) (env : Env) (fs0 : FS) (st : String)
    (stats : ImageStats) (cb nb origB : Bytes)
    (ha : env.analyzeResult = some stats)
    (hc : env.convertOutcome = .ok cb)
    (he : env.encodeOutcome = .ok nb)
    (h0 : fs0 ⟨st, ".png"⟩ = some origB)
    (hz : origB.length ≠ 0)
    (hd : evaluate_decision cfg (reduction_of origB.length nb.length) = true) :
    (process_single_image cfg env fs0 ⟨st, ".png"⟩).2 =
        .ok ⟨origB.length, origB.length, false⟩ ∧
    (process_single_image cfg env fs0 ⟨st, ".png"⟩).1 ⟨st, ".png"⟩ = none ∧
    (process_single_image cfg env fs0 ⟨st, ".png"⟩).1 ⟨st, ".jpg"⟩ =
        some (env.exifPngApply nb) ∧
    (process_single_image cfg env fs0 ⟨st, ".png"⟩).1 ⟨st, ".tmp.jpg"⟩ = none ∧
    (process_single_image cfg env fs0 ⟨st, ".png"⟩).1 ⟨st, ".png_temp.jpg"⟩ =
        none := by
  simp [process_single_image, process_try_body, convert_png_to_temp_jpg,
    ha, hc, he, h0, hz, hd, with_suffix]

/-- Outcome of a JPEG job that reaches the commit branch and then finds its
metadata backup gone (source lines 430-434): the committed output at the
original path is deleted, the job raises, and the original path ends with no
file at all. -/
theorem jpeg_missing_backup_run (cfg : Config) (env : Env) (fs0 : FS)
    (st sx : String) (stats : ImageStats) (nb origB : Bytes)
    (hsx : sx = ".jpg" ∨ sx = ".jpeg")
    (ha : env.analyzeResult = some stats)
    (hr : cfg.enable_resize = false)
    (he : env.encodeOutcome = .ok nb)
    (hmv : env.metaVanishes = true)
    (h0 : fs0 ⟨st, sx⟩ = some origB)
    (hz : origB.length ≠ 0)
    (hd : evaluate_decision cfg (reduction_of origB.length nb.length) = true) :
    (process_single_image cfg env fs0 ⟨st, sx⟩).2 = .error .missingBackupError ∧
    (process_single_image cfg env fs0 ⟨st, sx⟩).1 ⟨st, sx⟩ = none ∧
    (process_single_image cfg env fs0 ⟨st, sx⟩).1 ⟨st, ".tmp.jpg"⟩ = none := by
  rcases hsx with rfl | rfl <;>
    simp [process_single_image, process_try_body, handle_resize,
      ha, hr, he, hmv, h0, hz, hd, with_suffix]

/-- Outcome of a PNG job whose encoder invocation fails after the interim
converted source was written: the job raises `EncodeError`, the `except` and
`finally` clauses remove only the temp output and the metadata backup, and the
interim `.png_temp.jpg` file is left on disk. -/
theorem png_encode_fail_run (cfg : Config) (env : Env) (fs0 : FS) (st : String)
    (stats : ImageStats) (cb origB : Bytes) (w : Option Bytes)
    (ha : env.analyzeResult = some stats)
    (hc : env.convertOutcome = .ok cb)
    (he : env.encodeOutcome = .error w)
    (h0 : fs0 ⟨st, ".png"⟩ = some origB)
    (htmp : fs0 ⟨st, ".tmp.jpg"⟩ = none) :
    (process_single_image cfg env fs0 ⟨st, ".png"⟩).2 = .error .encodeError ∧
    (process_single_image cfg env fs0 ⟨st, ".png"⟩).1 ⟨st, ".png_temp.jpg"⟩ =
        some cb ∧
    (process_single_image cfg env fs0 ⟨st, ".png"⟩).1 ⟨st, ".png"⟩ =
        some origB := by
  rcases w with _ | pb <;>
    simp [process_single_image, process_try_body, convert_png_to_temp_jpg,
      ha, hc, he, h0, htmp, with_suffix]

/-- C1 (failing run for the code bug): a 20-byte PNG whose encoding (5 bytes,
75% reduction) passes the size gate and is committed — the original `img.png`
is deleted and `img.jpg` holds the encoded bytes — yet the returned dict is
`{original_size: 20, new_size: 20, replaced: False}`, because
`replaced = True` (source line 473) is only ever assigned on the JPEG
metadata branch.  This violates the spec invariant that `replaced == false`
implies the original file is byte-identical to its pre-job state, and
contradicts the claim that a committed PNG job returns `replaced == true`. -/
theorem C1_png_commit_not_replaced :
    (process_single_image cfg0 (env_ok (List.replicate 5 9))
        (FS.empty.update ⟨"img", ".png"⟩ (List.replicate 20 7))
        ⟨"img", ".png"⟩).2 = .ok ⟨20, 20, false⟩ ∧
    (process_single_image cfg0 (env_ok (List.replicate 5 9))
        (FS.empty.update ⟨"img", ".png"⟩ (List.replicate 20 7))
        ⟨"img", ".png"⟩).1 ⟨"img", ".png"⟩ = none ∧
    (process_single_image cfg0 (env_ok (List.replicate 5 9))
        (FS.empty.update ⟨"img", ".png"⟩ (List.replicate 20 7))
        ⟨"img", ".png"⟩).1 ⟨"img", ".jpg"⟩ = some (List.replicate 5 9) := by
  have h := png_commit_run cfg0 (env_ok (List.replicate 5 9))
      (FS.empty.update ⟨"img", ".png"⟩ (List.replicate 20 7)) "img" stats0
      [1, 2] (List.replicate 5 9) (List.replicate 20 7) rfl rfl rfl (by simp)
      (by simp) (by norm_num [evaluate_decision, reduction_of, cfg0])
  exact ⟨by simpa using h.1, h.2.1, by simpa [env_ok] using h.2.2.1⟩

/-- C2 counterexample: a 20-byte JPEG job that commits (75% reduction) and
then finds its metadata backup gone undoes the commit by deleting the file at
the original path; the job ends with no file at the original logical path — a
third, externally observable state that is neither the pre-job bytes nor
committed new content. -/
theorem C2_counterexample :
    (FS.empty.update ⟨"img", ".jpg"⟩ (List.replicate 20 7)) ⟨"img", ".jpg"⟩ =
        some (List.replicate 20 7) ∧
    (process_single_image cfg0
        { env_ok (List.replicate 5 9) with metaVanishes := true }
        (FS.empty.update ⟨"img", ".jpg"⟩ (List.replicate 20 7))
        ⟨"img", ".jpg"⟩).1 ⟨"img", ".jpg"⟩ = none ∧
    (process_single_image cfg0
        { env_ok (List.replicate 5 9) with metaVanishes := true }
        (FS.empty.update ⟨"img", ".jpg"⟩ (List.replicate 20 7))
        ⟨"img", ".jpg"⟩).2 = .error .missingBackupError := by
  have h := jpeg_missing_backup_run cfg0
      { env_ok (List.replicate 5 9) with metaVanishes := true }
      (FS.empty.update ⟨"img", ".jpg"⟩ (List.replicate 20 7)) "img" ".jpg"
      stats0 (List.replicate 5 9) (List.replicate 20 7) (Or.inl rfl) rfl rfl
      rfl rfl (by simp) (by simp)
      (by norm_num [evaluate_decision, reduction_of, cfg0])
  exact ⟨by simp, h.2.1, h.1⟩

/-- C3 counterexample: a PNG job whose interim converted source
`img.png_temp.jpg` has been written (bytes `[1, 2]`) and whose encoder
invocation then fails: the `except` clause deletes only the temp output and
the `finally` clause only the metadata backup (source lines 481-489), so the
job finishes with the interim file still on disk. -/
theorem C3_counterexample :
    (process_single_image cfg0 { env_ok [] with encodeOutcome := .error none }
        (FS.empty.update ⟨"img", ".png"⟩ (List.replicate 20 7))
        ⟨"img", ".png"⟩).1 ⟨"img", ".png_temp.jpg"⟩ = some [1, 2] ∧
    (process_single_image cfg0 { env_ok [] with encodeOutcome := .error none }
        (FS.empty.update ⟨"img", ".png"⟩ (List.replicate 20 7))
        ⟨"img", ".png"⟩).2 = .error .encodeError := by
  have h := png_encode_fail_run cfg0
      { env_ok [] with encodeOutcome := .error none }
      (FS.empty.update ⟨"img", ".png"⟩ (List.replicate 20 7)) "img" stats0
      [1, 2] (List.replicate 20 7) none rfl rfl rfl (by simp) (by simp)
  exact ⟨h.2.1, h.1⟩

/-- C7: for every JPEG (same-format) commit where the exiftool tag-copy
invocation reports failure (non-zero exit), the job rolls back: the bytes of
the file at the final path are restored to equal the pre-encode backup bytes
(which are the pre-job original bytes), the job surfaces the failure as an
error for that file, and the batch aggregation increments `errors` by exactly
one, leaving every other counter unchanged. -/
theorem C7_exif_failure_rollback (cfg : Config) (env : Env) (fs0 : FS)
    (st sx : String) (stats : ImageStats) (nb origB : Bytes) (s : BatchStats)
    (hsx : sx = ".jpg" ∨ sx = ".jpeg")
    (ha : env.analyzeResult = some stats)
    (hr : cfg.enable_resize = false)
    (he : env.encodeOutcome = .ok nb)
    (hmv : env.metaVanishes = false)
    (hex : env.exifCopyOk = false)
    (h0 : fs0 ⟨st, sx⟩ = some origB)
    (hz : origB.length ≠ 0)
    (hd : evaluate_decision cfg (reduction_of origB.length nb.length) = true) :
    (process_single_image cfg env fs0 ⟨st, sx⟩).2 = .error .exifToolError ∧
    (process_single_image cfg env fs0 ⟨st, sx⟩).1 ⟨st, sx⟩ = some origB ∧
    update_stats s (process_single_image cfg env fs0 ⟨st, sx⟩).2 =
      { s with errors := s.errors + 1 } := by
  obtain ⟨h1, h2⟩ : (process_single_image cfg env fs0 ⟨st, sx⟩).2 =
        .error .exifToolError ∧
      (process_single_image cfg env fs0 ⟨st, sx⟩).1 ⟨st, sx⟩ = some origB := by
    rcases hsx with rfl | rfl <;>
      simp [process_single_image, process_try_body, handle_resize,
        ha, hr, he, hmv, hex, h0, hz, hd, with_suffix]
  exact ⟨h1, h2, by rw [h1]; simp [update_stats]⟩

/-- C10 counterexample: a zero-byte input does not raise `ZeroDivisionError`.
`analyze_image_fast` fails first on an empty file (`cv2.imdecode` produces
nothing for an empty buffer and the PIL fallback raises on a zero-byte file),
so the faithful environment outcome for this input is `analyzeResult = none`
and the job raises the decode error at source line 330, before the division
at line 361 — while still being counted as an error, not a skip. -/
theorem C10_counterexample :
    (process_single_image cfg0 { env_ok [1] with analyzeResult := none }
        (FS.empty.update ⟨"img", ".jpg"⟩ [])
        ⟨"img", ".jpg"⟩).2 = .error .decodeError ∧
    (process_single_image cfg0 { env_ok [1] with analyzeResult := none }
        (FS.empty.update ⟨"img", ".jpg"⟩ [])
        ⟨"img", ".jpg"⟩).2 ≠ .error .zeroDivisionError ∧
    update_stats init_stats
        (process_single_image cfg0 { env_ok [1] with analyzeResult := none }
          (FS.empty.update ⟨"img", ".jpg"⟩ [])
          ⟨"img", ".jpg"⟩).2 = { init_stats with errors := 1 } := by
  refine ⟨?_, ?_, ?_⟩ <;>
    simp [process_single_image, process_try_body, handle_resize,
      update_stats, init_stats, cfg0, env_ok, with_suffix]

/-- C10 (amended): the reduction division at source line 361 has no zero
guard, but for a zero-byte input feature extraction fails before it is
reached.  For a zero-byte original (conversion and encoding outcomes supplied
for the paths that consult them): when feature extraction fails — as it does
for an empty file — the job raises the decode error of line 330; when it
nevertheless succeeds, the job reaches the unguarded division and raises
`ZeroDivisionError`.  In both cases the batch counts the file as an error,
incrementing `errors` by exactly one — never as a skip. -/
theorem C10_amended (cfg : Config) (env : Env) (fs0 : FS)
    (st sx : String) (cb nb : Bytes) (s : BatchStats)
    (hsx : sx = ".jpg" ∨ sx = ".jpeg" ∨ sx = ".png")
    (hr : cfg.enable_resize = false)
    (hc : env.convertOutcome = .ok cb)
    (he : env.encodeOutcome = .ok nb)
    (h0 : fs0 ⟨st, sx⟩ = some []) :
    (process_single_image cfg env fs0 ⟨st, sx⟩).2 =
      (match env.analyzeResult with
       | none => .error .decodeError
       | some _ => .error .zeroDivisionError) ∧
    update_stats s (process_single_image cfg env fs0 ⟨st, sx⟩).2 =
      { s with errors := s.errors + 1 } := by
  have h1 : (process_single_image cfg env fs0 ⟨st, sx⟩).2 =
      (match env.analyzeResult with
       | none => Except.error JobError.decodeError
       | some _ => Except.error JobError.zeroDivisionError) := by
    rcases ha : env.analyzeResult with _ | stats <;>
      rcases hsx with rfl | rfl | rfl <;>
      simp [process_single_image, process_try_body, handle_resize,
        convert_png_to_temp_jpg, ha, hr, hc, he, h0, with_suffix]
  refine ⟨h1, ?_⟩
  rw [h1]
  rcases h2 : env.analyzeResult with _ | stats <;> simp [h2, update_stats]

/-- C6: for every job whose encoder succeeds, with
`reduction = (originalSize - newSize) / originalSize`: if `reduction <= 5%`
the job skips (temp file deleted, original untouched, `replaced == false`);
else if the minimum-reduction gate is enabled and the reduction is below the
configured threshold the job skips the same way; otherwise the job commits
the new file onto the final output path. -/
theorem C6_evaluate_gate (cfg : Config) (env : Env) (fs0 : FS)
    (st sx : String) (stats : ImageStats) (cb nb origB : Bytes)
    (hsx : sx = ".jpg" ∨ sx = ".jpeg" ∨ sx = ".png")
    (ha : env.analyzeResult = some stats)
    (hr : cfg.enable_resize = false)
    (hc : env.convertOutcome = .ok cb)
    (he : env.encodeOutcome = .ok nb)
    (hmv : env.metaVanishes = false)
    (hex : env.exifCopyOk = true)
    (h0 : fs0 ⟨st, sx⟩ = some origB)
    (hz : origB.length ≠ 0) :
    (reduction_of origB.length nb.length ≤ 5 →
      (process_single_image cfg env fs0 ⟨st, sx⟩).2 =
          .ok ⟨origB.length, origB.length, false⟩ ∧
      (process_single_image cfg env fs0 ⟨st, sx⟩).1 ⟨st, ".tmp.jpg"⟩ = none ∧
      (process_single_image cfg env fs0 ⟨st, sx⟩).1 ⟨st, sx⟩ = some origB) ∧
    (5 < reduction_of origB.length nb.length →
      cfg.enable_min_reduction = true →
      reduction_of origB.length nb.length < (cfg.min_reduction : ℚ) →
      (process_single_image cfg env fs0 ⟨st, sx⟩).2 =
          .ok ⟨origB.length, origB.length, false⟩ ∧
      (process_single_image cfg env fs0 ⟨st, sx⟩).1 ⟨st, ".tmp.jpg"⟩ = none ∧
      (process_single_image cfg env fs0 ⟨st, sx⟩).1 ⟨st, sx⟩ = some origB) ∧
    (5 < reduction_of origB.length nb.length →
      (cfg.enable_min_reduction = true →
        (cfg.min_reduction : ℚ) ≤ reduction_of origB.length nb.length) →
      (process_single_image cfg env fs0 ⟨st, sx⟩).1 ⟨st, ".tmp.jpg"⟩ = none ∧
      (process_single_image cfg env fs0 ⟨st, sx⟩).1
          (if sx = ".png" then ⟨st, ".jpg"⟩ else ⟨st, sx⟩) =
        some (if sx = ".png" then env.exifPngApply nb
              else env.exifCopyApply origB nb)) := by
  refine ⟨fun hle => ?_, fun hgt hen hlt => ?_, fun hgt hmin => ?_⟩
  · have hd : evaluate_decision cfg (reduction_of origB.length nb.length) =
        false := by
      simp [evaluate_decision, hle]
    rcases hsx with rfl | rfl | rfl <;>
      simp [process_single_image, process_try_body, handle_resize,
        convert_png_to_temp_jpg, ha, hr, hc, he, h0, hz, hd, with_suffix]
  · have hd : evaluate_decision cfg (reduction_of origB.length nb.length) =
        false := by
      simp [evaluate_decision, not_le.mpr hgt, hen, hlt]
    rcases hsx with rfl | rfl | rfl <;>
      simp [process_single_image, process_try_body, handle_resize,
        convert_png_to_temp_jpg, ha, hr, hc, he, h0, hz, hd, with_suffix]
  · have hd : evaluate_decision cfg (reduction_of origB.length nb.length) =
        true := by
      rcases hb : cfg.enable_min_reduction with _ | _
      · simp [evaluate_decision, not_le.mpr hgt, hb]
      · simp [evaluate_decision, not_le.mpr hgt, hb, not_lt.mpr (hmin hb)]
    rcases hsx with rfl | rfl | rfl <;>
      simp [process_single_image, process_try_body, handle_resize,
        convert_png_to_temp_jpg, ha, hr, hc, he, hmv, hex, h0, hz, hd,
        with_suffix]

section
set_option maxHeartbeats 8000000

/-- C3 (amended): on every exit path the metadata backup and the temporary
encoded output are deleted by the time the job finishes; the interim
converted/resized source file is deleted whenever the encoder invocation
succeeds, but when the encoder fails after an interim file was created the
interim file is leaked (see the counterexample).  Stated for a job whose
interim/backup paths hold no pre-existing files. -/
theorem C3_amended (cfg : Config) (env : Env) (fs0 : FS) (st sx : String)
    (origB : Bytes)
    (hsx : sx = ".jpg" ∨ sx = ".jpeg" ∨ sx = ".png")
    (h0 : fs0 ⟨st, sx⟩ = some origB)
    (htmp : fs0 ⟨st, ".tmp.jpg"⟩ = none)
    (hmeta : fs0 ⟨st, ".metadata.jpg"⟩ = none)
    (hpt : fs0 ⟨st, ".png_temp.jpg"⟩ = none)
    (hrs : fs0 ⟨st, ".resized.jpg"⟩ = none) :
    (process_single_image cfg env fs0 ⟨st, sx⟩).1 ⟨st, ".metadata.jpg"⟩ =
        none ∧
    (process_single_image cfg env fs0 ⟨st, sx⟩).1 ⟨st, ".tmp.jpg"⟩ = none ∧
    (match env.encodeOutcome with
     | .ok _ =>
        (process_single_image cfg env fs0 ⟨st, sx⟩).1 ⟨st, ".png_temp.jpg"⟩ =
            none ∧
        (process_single_image cfg env fs0 ⟨st, sx⟩).1 ⟨st, ".resized.jpg"⟩ =
            none
     | .error _ => True) := by
  rcases hsx with rfl | rfl | rfl <;>
    rcases ha : env.analyzeResult with _ | stats <;>
    rcases hco : env.convertOutcome with u | cb <;>
    rcases hro : env.resizeOutcome with u' | (_ | rb) <;>
    rcases he : env.encodeOutcome with (_ | pb) | nb <;>
    simp [process_single_image, process_try_body, handle_resize,
      convert_png_to_temp_jpg, ha, hco, hro, he, h0, htmp, hmeta, hpt, hrs,
      with_suffix] <;>
    try split_ifs <;>
    try simp_all [with_suffix] <;>
    try split_ifs <;>
    try simp_all [with_suffix]

end

section
set_option maxHeartbeats 8000000

/-- C2 (amended): at job completion the file at the logical original path
(the `.jpg` output path for a PNG input, the input path itself otherwise) is
byte-identical to its pre-job state or holds the fully committed new content —
except in the missing-backup branch, which undoes the commit by deleting the
committed output and leaves no file at the original logical path. -/
theorem C2_amended (cfg : Config) (env : Env) (fs0 : FS) (st sx : String)
    (origB : Bytes)
    (hsx : sx = ".jpg" ∨ sx = ".jpeg" ∨ sx = ".png")
    (h0 : fs0 ⟨st, sx⟩ = some origB) :
    (process_single_image cfg env fs0 ⟨st, sx⟩).1
        (if sx = ".png" then ⟨st, ".jpg"⟩ else ⟨st, sx⟩) =
      fs0 (if sx = ".png" then ⟨st, ".jpg"⟩ else ⟨st, sx⟩) ∨
    (match env.encodeOutcome with
     | .ok nb =>
        (process_single_image cfg env fs0 ⟨st, sx⟩).1
            (if sx = ".png" then ⟨st, ".jpg"⟩ else ⟨st, sx⟩) =
          some (env.exifPngApply nb) ∨
        (process_single_image cfg env fs0 ⟨st, sx⟩).1
            (if sx = ".png" then ⟨st, ".jpg"⟩ else ⟨st, sx⟩) =
          some (env.exifCopyApply origB nb)
     | .error _ => False) ∨
    ((process_single_image cfg env fs0 ⟨st, sx⟩).2 =
        .error .missingBackupError ∧
      (process_single_image cfg env fs0 ⟨st, sx⟩).1
        (if sx = ".png" then ⟨st, ".jpg"⟩ else ⟨st, sx⟩) = none) := by
  rcases hsx with rfl | rfl | rfl <;>
    rcases ha : env.analyzeResult with _ | stats <;>
    rcases hco : env.convertOutcome with u | cb <;>
    rcases hro : env.resizeOutcome with u' | (_ | rb) <;>
    rcases he : env.encodeOutcome with (_ | pb) | nb <;>
    simp [process_single_image, process_try_body, handle_resize,
      convert_png_to_temp_jpg, ha, hco, hro, he, h0, with_suffix] <;>
    try split_ifs <;>
    try simp_all [with_suffix] <;>
    try split_ifs <;>
    try simp_all [with_suffix]

end

/-- Witness for C6: a 25-byte JPEG encoded to 24 bytes (4% reduction) under
the default configuration; the skip clause applies: `replaced = false`, the
temp file is gone, the original bytes are untouched. -/
theorem C6_witness :
    (process_single_image cfg0 (env_ok (List.replicate 24 9))
        (FS.empty.update ⟨"img", ".jpg"⟩ (List.replicate 25 7))
        ⟨"img", ".jpg"⟩).2 = .ok ⟨25, 25, false⟩ ∧
    (process_single_image cfg0 (env_ok (List.replicate 24 9))
        (FS.empty.update ⟨"img", ".jpg"⟩ (List.replicate 25 7))
        ⟨"img", ".jpg"⟩).1 ⟨"img", ".tmp.jpg"⟩ = none ∧
    (process_single_image cfg0 (env_ok (List.replicate 24 9))
        (FS.empty.update ⟨"img", ".jpg"⟩ (List.replicate 25 7))
        ⟨"img", ".jpg"⟩).1 ⟨"img", ".jpg"⟩ = some (List.replicate 25 7) := by
  have h := C6_evaluate_gate cfg0 (env_ok (List.replicate 24 9))
      (FS.empty.update ⟨"img", ".jpg"⟩ (List.replicate 25 7)) "img" ".jpg"
      stats0 [1, 2] (List.replicate 24 9) (List.replicate 25 7)
      (Or.inl rfl) rfl rfl rfl rfl rfl rfl (by simp) (by simp)
  have h1 := h.1 (by norm_num [reduction_of])
  exact ⟨by simpa using h1.1, h1.2.1, h1.2.2⟩

/-- Witness for C7: a 20-byte JPEG committed at 75% reduction whose exiftool
tag copy fails; the final file holds the backup bytes, the job errors, and
the error counter moves from 0 to 1. -/
theorem C7_witness :
    (process_single_image cfg0
        { env_ok (List.replicate 5 9) with exifCopyOk := false }
        (FS.empty.update ⟨"img", ".jpg"⟩ (List.replicate 20 7))
        ⟨"img", ".jpg"⟩).2 = .error .exifToolError ∧
    (process_single_image cfg0
        { env_ok (List.replicate 5 9) with exifCopyOk := false }
        (FS.empty.update ⟨"img", ".jpg"⟩ (List.replicate 20 7))
        ⟨"img", ".jpg"⟩).1 ⟨"img", ".jpg"⟩ = some (List.replicate 20 7) ∧
    update_stats init_stats
        (process_single_image cfg0
          { env_ok (List.replicate 5 9) with exifCopyOk := false }
          (FS.empty.update ⟨"img", ".jpg"⟩ (List.replicate 20 7))
          ⟨"img", ".jpg"⟩).2 = { init_stats with errors := 1 } := by
  have h := C7_exif_failure_rollback cfg0
      { env_ok (List.replicate 5 9) with exifCopyOk := false }
      (FS.empty.update ⟨"img", ".jpg"⟩ (List.replicate 20 7)) "img" ".jpg"
      stats0 (List.replicate 5 9) (List.replicate 20 7) init_stats
      (Or.inl rfl) rfl rfl rfl rfl rfl (by simp) (by simp)
      (by norm_num [evaluate_decision, reduction_of, cfg0])
  exact ⟨h.1, h.2.1, by simpa [init_stats] using h.2.2⟩

/-- Witness for the amended C10: a zero-byte JPEG with the decode-failure
environment an empty file actually produces; the job raises the decode error
and moves the error counter from 0 to 1. -/
theorem C10_amended_witness :
    (process_single_image cfg0 { env_ok [1] with analyzeResult := none }
        (FS.empty.update ⟨"img", ".jpeg"⟩ [])
        ⟨"img", ".jpeg"⟩).2 =
      (match ({ env_ok [1] with analyzeResult := none } : Env).analyzeResult with
       | none => Except.error JobError.decodeError
       | some _ => Except.error JobError.zeroDivisionError) ∧
    update_stats init_stats
        (process_single_image cfg0 { env_ok [1] with analyzeResult := none }
          (FS.empty.update ⟨"img", ".jpeg"⟩ [])
          ⟨"img", ".jpeg"⟩).2 = { init_stats with errors := 1 } := by
  have h := C10_amended cfg0 { env_ok [1] with analyzeResult := none }
      (FS.empty.update ⟨"img", ".jpeg"⟩ []) "img" ".jpeg" [1, 2] [1]
      init_stats (Or.inr (Or.inl rfl)) rfl rfl rfl (by simp)
  exact ⟨h.1, by simpa [init_stats] using h.2⟩

/-- Witness for the amended C3: a 25-byte JPEG skip run; backup, temp and
interim paths all end empty. -/
theorem C3_amended_witness :
    (process_single_image cfg0 (env_ok (List.replicate 24 9))
        (FS.empty.update ⟨"img", ".jpg"⟩ (List.replicate 25 7))
        ⟨"img", ".jpg"⟩).1 ⟨"img", ".metadata.jpg"⟩ = none ∧
    (process_single_image cfg0 (env_ok (List.replicate 24 9))
        (FS.empty.update ⟨"img", ".jpg"⟩ (List.replicate 25 7))
        ⟨"img", ".jpg"⟩).1 ⟨"img", ".tmp.jpg"⟩ = none ∧
    (match (env_ok (List.replicate 24 9)).encodeOutcome with
     | .ok _ =>
        (process_single_image cfg0 (env_ok (List.replicate 24 9))
            (FS.empty.update ⟨"img", ".jpg"⟩ (List.replicate 25 7))
            ⟨"img", ".jpg"⟩).1 ⟨"img", ".png_temp.jpg"⟩ = none ∧
        (process_single_image cfg0 (env_ok (List.replicate 24 9))
            (FS.empty.update ⟨"img", ".jpg"⟩ (List.replicate 25 7))
            ⟨"img", ".jpg"⟩).1 ⟨"img", ".resized.jpg"⟩ = none
     | .error _ => True) :=
  C3_amended cfg0 (env_ok (List.replicate 24 9))
    (FS.empty.update ⟨"img", ".jpg"⟩ (List.replicate 25 7)) "img" ".jpg"
    (List.replicate 25 7) (Or.inl rfl) (by simp) (by simp) (by simp) (by simp)
    (by simp)

/-- Witness for the amended C2: a 20-byte JPEG commit run with a successful
tag copy; the theorem's disjunction holds at the original path. -/
theorem C2_amended_witness :
    (process_single_image cfg0 (env_ok (List.replicate 5 9))
        (FS.empty.update ⟨"img", ".jpg"⟩ (List.replicate 20 7))
        ⟨"img", ".jpg"⟩).1
        (if ".jpg" = ".png" then (⟨"img", ".jpg"⟩ : FilePath)
         else ⟨"img", ".jpg"⟩) =
      (FS.empty.update ⟨"img", ".jpg"⟩ (List.replicate 20 7))
        (if ".jpg" = ".png" then (⟨"img", ".jpg"⟩ : FilePath)
         else ⟨"img", ".jpg"⟩) ∨
    (match (env_ok (List.replicate 5 9)).encodeOutcome with
     | .ok nb =>
        (process_single_image cfg0 (env_ok (List.replicate 5 9))
            (FS.empty.update ⟨"img", ".jpg"⟩ (List.replicate 20 7))
            ⟨"img", ".jpg"⟩).1
            (if ".jpg" = ".png" then (⟨"img", ".jpg"⟩ : FilePath)
             else ⟨"img", ".jpg"⟩) =
          some ((env_ok (List.replicate 5 9)).exifPngApply nb) ∨
        (process_single_image cfg0 (env_ok (List.replicate 5 9))
            (FS.empty.update ⟨"img", ".jpg"⟩ (List.replicate 20 7))
            ⟨"img", ".jpg"⟩).1
            (if ".jpg" = ".png" then (⟨"img", ".jpg"⟩ : FilePath)
             else ⟨"img", ".jpg"⟩) =
          some ((env_ok (List.replicate 5 9)).exifCopyApply
            (List.replicate 20 7) nb)
     | .error _ => False) ∨
    ((process_single_image cfg0 (env_ok (List.replicate 5 9))
        (FS.empty.update ⟨"img", ".jpg"⟩ (List.replicate 20 7))
        ⟨"img", ".jpg"⟩).2 = .error .missingBackupError ∧
      (process_single_image cfg0 (env_ok (List.replicate 5 9))
        (FS.empty.update ⟨"img", ".jpg"⟩ (List.replicate 20 7))
        ⟨"img", ".jpg"⟩).1
        (if ".jpg" = ".png" then (⟨"img", ".jpg"⟩ : FilePath)
         else ⟨"img", ".jpg"⟩) = none) :=
  C2_amended cfg0 (env_ok (List.replicate 5 9))
    (FS.empty.update ⟨"img", ".jpg"⟩ (List.replicate 20 7)) "img" ".jpg"
    (List.replicate 20 7) (Or.inl rfl) (by simp)
